import Mathlib

/-!
Shallow embedding of the PrivyPass backend core: key derivation
(src/crypto/keys.rs), proof generation (src/crypto/proof.rs), and the
route handlers (src/routes/{account,deposit,transfer,withdraw}.rs).

External library calls (solana-sdk, spl-token-2022 and the zk proof
crates) and the ledger RPC are modelled at their interface boundary as
fields of an environment record `Env`; the control flow, argument
passing and error mapping of the repository's own code are translated
statement by statement from the Rust source.  Each handler returns its
result together with the trace of ledger interactions (account fetches,
blockhash fetches, transaction submissions) it attempted, in order.
-/

namespace PrivyPass

/-- Ledger addresses (solana `Pubkey`), abstracted to naturals. -/
abbrev Pubkey := Nat

/-- Raw byte strings, abstracted. -/
abbrev Bytes := List Nat

/-- `Pubkey::to_bytes`, abstracted: the byte serialization of an address. -/
def pubkeyToBytes (p : Pubkey) : Bytes := [p]

/-- A wallet signing keypair (solana `Keypair`); only its public half is
observable in the embedded instructions. -/
structure Keypair where
  pubkey : Pubkey
deriving DecidableEq, Repr

/-- An ElGamal encryption keypair from the zk sdk, opaque. -/
structure ElGamalKeypair where
  raw : Nat
deriving DecidableEq, Repr

/-- An ElGamal public key from the zk sdk, opaque. -/
structure ElGamalPubkey where
  raw : Nat
deriving DecidableEq, Repr

/-- An authenticated-encryption (AES) key from the zk sdk, opaque. -/
structure AeKey where
  raw : Nat
deriving DecidableEq, Repr

/-- The external deterministic key-derivation capability of the zk sdk:
`ElGamalKeypair::new_from_signer` and `AeKey::new_from_signer`.  Both are
pure functions of the signer and the seed message (the sdk derives the
seed from a deterministic signature over the message); `none` models the
sdk rejecting the seed. -/
structure Ext where
  elgamalNewFromSigner : Keypair → Bytes → Option ElGamalKeypair
  aeKeyNewFromSigner : Keypair → Bytes → Option AeKey

/-- `generate_elgamal_keypair` from src/crypto/keys.rs: derive the
ElGamal keypair from the wallet signer and the token-account address. -/
def generate_elgamal_keypair (ext : Ext) (wallet_keypair : Keypair)
    (token_account : Pubkey) : Except String ElGamalKeypair :=
  match ext.elgamalNewFromSigner wallet_keypair (pubkeyToBytes token_account) with
  | some k => .ok k
  | none => .error "Failed to generate ElGamal keypair"

/-- `generate_aes_key` from src/crypto/keys.rs: derive the AES key from
the wallet signer and the token-account address. -/
def generate_aes_key (ext : Ext) (wallet_keypair : Keypair)
    (token_account : Pubkey) : Except String AeKey :=
  match ext.aeKeyNewFromSigner wallet_keypair (pubkeyToBytes token_account) with
  | some k => .ok k
  | none => .error "Failed to generate AES key"

/-- `decrypt_balance` from src/crypto/keys.rs: the stubbed decryption of
a 36-byte `AeCiphertext`; the source returns the placeholder `Ok(0)`
without consulting either argument. -/
def decrypt_balance (_aes_key : AeKey) (_encrypted_balance : Fin 36 → Nat) :
    Except String Nat :=
  .ok 0

/-- `generate_eligibility_proof` from src/crypto/proof.rs.  The only
impure ingredient of the source, `chrono::Utc::now().timestamp()`, is
passed in as `now_ts`. -/
def generate_eligibility_proof (available_balance threshold : Nat)
    (now_ts : Int) : Except String (Bool × String) :=
  let eligible := decide (available_balance ≥ threshold)
  let proof :=
    if available_balance ≥ threshold then
      "proof:eligible:" ++ toString available_balance ++ ":" ++
        toString threshold ++ ":" ++ toString now_ts
    else
      "proof:ineligible"
  .ok (eligible, proof)

/-! ## Route-layer data model (src/models/mod.rs and axum status codes) -/

/-- The HTTP status codes the handlers actually produce. -/
inductive StatusCode where
  | badRequest
  | notFound
  | internalServerError
deriving DecidableEq, Repr

/-- The split transfer proof data from the zk sdk
(`TransferProofData`): three opaque sub-proof payloads. -/
structure TransferProofData where
  equality_proof_data : Nat
  ciphertext_validity_proof_data : Nat
  range_proof_data : Nat
deriving DecidableEq, Repr

/-- The withdraw proof data from the zk sdk (`WithdrawProofData`):
two opaque sub-proof payloads. -/
structure WithdrawProofData where
  equality_proof_data : Nat
  range_proof_data : Nat
deriving DecidableEq, Repr

/-- Raw ledger account data returned by `get_account`, opaque. -/
structure AccountData where
  raw : Nat
deriving DecidableEq, Repr

/-- An unpacked spl-token-2022 account state, opaque. -/
structure TokenAccountState where
  raw : Nat
deriving DecidableEq, Repr

/-- The `ConfidentialTransferAccount` extension data, opaque. -/
structure CtExtension where
  raw : Nat
deriving DecidableEq, Repr

/-- The ledger instructions the handlers build, with the arguments the
repository's call sites pass to the external constructors. -/
inductive Instr where
  | verifyProof (ctxAccount : Pubkey) (proofData : Nat)
  | transferConfidential (source dest owner : Pubkey)
      (eqCtx ctCtx rangeCtx : Pubkey) (amount : Nat)
  | withdrawConfidential (account owner : Pubkey)
      (eqCtx rangeCtx : Pubkey) (amount : Nat) (decimals : Nat)
  | closeContextState (ctxAccount dest authority : Pubkey)
  | deposit (account mint : Pubkey) (amount : Nat) (decimals : Nat)
      (authority : Pubkey)
  | applyPendingBalance (account owner : Pubkey)
  | createAssociatedTokenAccount (payer owner mint : Pubkey)
  | reallocate (account : Pubkey)
  | configureAccount (account mint : Pubkey) (decryptableBalance : Nat)
      (maxPendingCounter : Nat) (authority : Pubkey)
deriving DecidableEq, Repr

/-- A transaction: an instruction list and a fee payer
(`Transaction::new_with_payer`). -/
structure Tx where
  instrs : List Instr
  payer : Pubkey
deriving DecidableEq, Repr

/-- One ledger interaction attempted by a handler. -/
inductive Event where
  | fetchAccount (address : Pubkey)
  | fetchBlockhash
  | submit (tx : Tx)
deriving DecidableEq, Repr

/-- The environment of one handler invocation: the external library
functions (parsing, unpacking, proof generation, instruction encoding)
and the ledger RPC.  Fallibility of each external call is environment
controlled; `submitResult n` is the outcome of the n-th
`send_and_confirm_transaction` of the run (`none` = failure),
`freshKeypair n` is the n-th `Keypair::new()` of the run. -/
structure Env where
  ext : Ext
  parsePubkey : String → Option Pubkey
  bs58Decode : String → Option Bytes
  elgamalPubkeyFromBytes : Bytes → Option ElGamalPubkey
  freshKeypair : Nat → Keypair
  getAccount : Pubkey → Option AccountData
  latestBlockhash : Option Nat
  unpackAccount : AccountData → Option TokenAccountState
  getCtExtension : TokenAccountState → Option CtExtension
  generateSplitTransferProofData : CtExtension → Nat → ElGamalKeypair →
    AeKey → ElGamalPubkey → Option ElGamalPubkey → Option TransferProofData
  generateWithdrawProofData : CtExtension → Nat → ElGamalKeypair →
    AeKey → Option WithdrawProofData
  pubkeyValidityProofData : ElGamalKeypair → Option Nat
  encodeVerifyProofFails : Nat → Bool
  transferIxFails : Bool
  withdrawIxFails : Bool
  depositIxFails : Bool
  applyPendingIxFails : Bool
  reallocateIxFails : Bool
  configureAccountFails : Bool
  submitResult : Nat → Option Nat
  ataAddress : Pubkey → Pubkey → Pubkey
  aeEncryptZero : AeKey → Nat

/-- `TransferRequest` from src/models/mod.rs. -/
structure TransferRequest where
  sender_wallet : String
  sender_token_account : String
  recipient_token_account : String
  recipient_elgamal_pubkey : String
  amount : Nat
deriving DecidableEq, Repr

/-- `TransferResponse` from src/models/mod.rs. -/
structure TransferResponse where
  success : Bool
  signature : String
  error : Option String
deriving DecidableEq, Repr

/-- `WithdrawRequest` from src/models/mod.rs. -/
structure WithdrawRequest where
  wallet_address : String
  token_account : String
  amount : Nat
  decimals : Nat
deriving DecidableEq, Repr

/-- `WithdrawResponse` from src/models/mod.rs. -/
structure WithdrawResponse where
  success : Bool
  signature : String
  error : Option String
deriving DecidableEq, Repr

/-- `DepositRequest` from src/models/mod.rs; note it carries no mint
address field. -/
structure DepositRequest where
  wallet_address : String
  token_account : String
  amount : Nat
  decimals : Nat
deriving DecidableEq, Repr

/-- `DepositResponse` from src/models/mod.rs. -/
structure DepositResponse where
  success : Bool
  signature : String
  error : Option String
deriving DecidableEq, Repr

/-- `ApplyPendingRequest` from src/models/mod.rs. -/
structure ApplyPendingRequest where
  wallet_address : String
  token_account : String
deriving DecidableEq, Repr

/-- `ApplyPendingResponse` from src/models/mod.rs. -/
structure ApplyPendingResponse where
  success : Bool
  signature : String
  error : Option String
deriving DecidableEq, Repr

/-- `CreateAccountRequest` from src/models/mod.rs. -/
structure CreateAccountRequest where
  wallet_address : String
  mint_address : String
deriving DecidableEq, Repr

/-- `CreateAccountResponse` from src/models/mod.rs. -/
structure CreateAccountResponse where
  success : Bool
  token_account : String
  signature : String
  error : Option String
deriving DecidableEq, Repr

/-- `GetBalanceRequest` from src/models/mod.rs. -/
structure GetBalanceRequest where
  wallet_address : String
  token_account : String
deriving DecidableEq, Repr

/-- `GetBalanceResponse` from src/models/mod.rs. -/
structure GetBalanceResponse where
  success : Bool
  available_balance : Nat
  pending_balance : Nat
  decrypted_available : Option Nat
  error : Option String
deriving DecidableEq, Repr

/-- `GenerateProofRequest` from src/models/mod.rs. -/
structure GenerateProofRequest where
  wallet_address : String
  token_account : String
  threshold : Nat
deriving DecidableEq, Repr

/-- `GenerateProofResponse` from src/models/mod.rs. -/
structure GenerateProofResponse where
  success : Bool
  proof : String
  public_inputs : List String
  eligible : Bool
  error : Option String
deriving DecidableEq, Repr

/-! ## Proof generation (src/crypto/proof.rs) over the environment -/

/-- `generate_transfer_proof` from src/crypto/proof.rs: delegates to the
zk sdk's `generate_split_transfer_proof_data` and wraps its error.  The
`TransferAccountInfo::new` wrapper around the extension data is the
identity at this level of abstraction. -/
def generate_transfer_proof (env : Env) (transfer_account_info : CtExtension)
    (amount : Nat) (sender_elgamal_keypair : ElGamalKeypair)
    (sender_aes_key : AeKey) (recipient_elgamal_pubkey : ElGamalPubkey)
    (auditor_elgamal_pubkey : Option ElGamalPubkey) :
    Except String TransferProofData :=
  match env.generateSplitTransferProofData transfer_account_info amount
      sender_elgamal_keypair sender_aes_key recipient_elgamal_pubkey
      auditor_elgamal_pubkey with
  | some d => .ok d
  | none => .error "Failed to generate transfer proof"

/-- `generate_withdraw_proof` from src/crypto/proof.rs. -/
def generate_withdraw_proof (env : Env) (withdraw_account_info : CtExtension)
    (amount : Nat) (elgamal_keypair : ElGamalKeypair) (aes_key : AeKey) :
    Except String WithdrawProofData :=
  match env.generateWithdrawProofData withdraw_account_info amount
      elgamal_keypair aes_key with
  | some d => .ok d
  | none => .error "Failed to generate withdraw proof"

/-- `generate_pubkey_validity_proof` from src/crypto/proof.rs. -/
def generate_pubkey_validity_proof (env : Env)
    (elgamal_keypair : ElGamalKeypair) : Except String Nat :=
  match env.pubkeyValidityProofData elgamal_keypair with
  | some d => .ok d
  | none => .error "Failed to generate pubkey validity proof"

/-! ## Route handlers (src/routes/*.rs)

Each handler returns the result the Rust function would return together
with the ordered trace of ledger interactions it attempted.  The `step`
combinator is the Rust `?` on an external call whose failure maps to a
status code: on failure it returns the trace accumulated so far. -/

/-- Rust `.map_err(|_| code)?` on an optional external result; `tr` is
the ledger trace accumulated up to and including this step. -/
def step {α β : Type} (o : Option α) (code : StatusCode) (tr : List Event)
    (k : α → Except StatusCode β × List Event) :
    Except StatusCode β × List Event :=
  match o with
  | none => (.error code, tr)
  | some a => k a

/-- Rust `.map_err(|_| code)?` on a fallible crypto-module call. -/
def stepE {α β : Type} (r : Except String α) (code : StatusCode)
    (tr : List Event) (k : α → Except StatusCode β × List Event) :
    Except StatusCode β × List Event :=
  match r with
  | .error _ => (.error code, tr)
  | .ok a => k a

/-- `confidential_transfer` from src/routes/transfer.rs.  Submission
indices: 0 = equality context creation, 1 = ciphertext-validity context
creation, 2 = range context creation, 3 = the guarded transfer,
4/5/6 = the three closes (whose results the source discards with
`.ok()`).  Fresh keypair indices: 0 = payer, 1 = simulated sender
wallet, 2/3/4 = the three proof-context identities. -/
def confidential_transfer (env : Env) (payload : TransferRequest) :
    Except StatusCode TransferResponse × List Event :=
  step (env.parsePubkey payload.sender_wallet) .badRequest [] fun sender_wallet =>
  step (env.parsePubkey payload.sender_token_account) .badRequest [] fun sender_token_account =>
  step (env.parsePubkey payload.recipient_token_account) .badRequest [] fun recipient_token_account =>
  step (env.bs58Decode payload.recipient_elgamal_pubkey) .badRequest [] fun recipient_elgamal_pubkey_bytes =>
  step (env.elgamalPubkeyFromBytes recipient_elgamal_pubkey_bytes) .badRequest [] fun recipient_elgamal_pubkey =>
  let payer := env.freshKeypair 0
  step (env.getAccount sender_token_account) .notFound
    [.fetchAccount sender_token_account] fun sender_account_data =>
  step (env.unpackAccount sender_account_data) .internalServerError
    [.fetchAccount sender_token_account] fun token_account_data =>
  step (env.getCtExtension token_account_data) .internalServerError
    [.fetchAccount sender_token_account] fun ct_extension =>
  let sender_user_wallet := env.freshKeypair 1
  stepE (generate_elgamal_keypair env.ext sender_user_wallet sender_token_account)
    .internalServerError [.fetchAccount sender_token_account] fun sender_elgamal =>
  stepE (generate_aes_key env.ext sender_user_wallet sender_token_account)
    .internalServerError [.fetchAccount sender_token_account] fun sender_aes =>
  stepE (generate_transfer_proof env ct_extension payload.amount sender_elgamal
      sender_aes recipient_elgamal_pubkey none)
    .internalServerError [.fetchAccount sender_token_account] fun transfer_proof_data =>
  let equality_proof_keypair := env.freshKeypair 2
  let ciphertext_proof_keypair := env.freshKeypair 3
  let range_proof_keypair := env.freshKeypair 4
  step (if env.encodeVerifyProofFails transfer_proof_data.equality_proof_data
      then none else some ()) .internalServerError
    [.fetchAccount sender_token_account] fun _ =>
  let eq_tx : Tx := ⟨[.verifyProof equality_proof_keypair.pubkey
      transfer_proof_data.equality_proof_data], payer.pubkey⟩
  step env.latestBlockhash .internalServerError
    [.fetchAccount sender_token_account, .fetchBlockhash] fun _recent_blockhash =>
  step (env.submitResult 0) .internalServerError
    [.fetchAccount sender_token_account, .fetchBlockhash, .submit eq_tx] fun _eq_sig =>
  step (if env.encodeVerifyProofFails transfer_proof_data.ciphertext_validity_proof_data
      then none else some ()) .internalServerError
    [.fetchAccount sender_token_account, .fetchBlockhash, .submit eq_tx] fun _ =>
  let ct_tx : Tx := ⟨[.verifyProof ciphertext_proof_keypair.pubkey
      transfer_proof_data.ciphertext_validity_proof_data], payer.pubkey⟩
  step (env.submitResult 1) .internalServerError
    [.fetchAccount sender_token_account, .fetchBlockhash, .submit eq_tx,
     .submit ct_tx] fun _ct_sig =>
  step (if env.encodeVerifyProofFails transfer_proof_data.range_proof_data
      then none else some ()) .internalServerError
    [.fetchAccount sender_token_account, .fetchBlockhash, .submit eq_tx,
     .submit ct_tx] fun _ =>
  let range_tx : Tx := ⟨[.verifyProof range_proof_keypair.pubkey
      transfer_proof_data.range_proof_data], payer.pubkey⟩
  step (env.submitResult 2) .internalServerError
    [.fetchAccount sender_token_account, .fetchBlockhash, .submit eq_tx,
     .submit ct_tx, .submit range_tx] fun _range_sig =>
  step (if env.transferIxFails then none else some
      (Instr.transferConfidential sender_token_account recipient_token_account
        sender_wallet equality_proof_keypair.pubkey ciphertext_proof_keypair.pubkey
        range_proof_keypair.pubkey payload.amount)) .internalServerError
    [.fetchAccount sender_token_account, .fetchBlockhash, .submit eq_tx,
     .submit ct_tx, .submit range_tx] fun transfer_ix =>
  let transfer_tx : Tx := ⟨[transfer_ix], payer.pubkey⟩
  step (env.submitResult 3) .internalServerError
    [.fetchAccount sender_token_account, .fetchBlockhash, .submit eq_tx,
     .submit ct_tx, .submit range_tx, .submit transfer_tx] fun transfer_sig =>
  let close_eq_tx : Tx := ⟨[.closeContextState equality_proof_keypair.pubkey
      sender_token_account payer.pubkey], payer.pubkey⟩
  let close_ct_tx : Tx := ⟨[.closeContextState ciphertext_proof_keypair.pubkey
      sender_token_account payer.pubkey], payer.pubkey⟩
  let close_range_tx : Tx := ⟨[.closeContextState range_proof_keypair.pubkey
      sender_token_account payer.pubkey], payer.pubkey⟩
  (.ok { success := true, signature := toString transfer_sig, error := none },
   [.fetchAccount sender_token_account, .fetchBlockhash, .submit eq_tx,
    .submit ct_tx, .submit range_tx, .submit transfer_tx, .submit close_eq_tx,
    .submit close_ct_tx, .submit close_range_tx])

/-- `withdraw_tokens` from src/routes/withdraw.rs.  Submission indices:
0 = equality context creation, 1 = range context creation, 2 = the
guarded withdraw, 3/4 = the two closes (results discarded with `.ok()`).
Fresh keypair indices: 0 = payer, 1 = simulated user wallet, 2/3 = the
two proof-context identities. -/
def withdraw_tokens (env : Env) (payload : WithdrawRequest) :
    Except StatusCode WithdrawResponse × List Event :=
  step (env.parsePubkey payload.wallet_address) .badRequest [] fun wallet_pubkey =>
  step (env.parsePubkey payload.token_account) .badRequest [] fun token_account =>
  let payer := env.freshKeypair 0
  step (env.getAccount token_account) .notFound
    [.fetchAccount token_account] fun account_data =>
  step (env.unpackAccount account_data) .internalServerError
    [.fetchAccount token_account] fun token_account_data =>
  step (env.getCtExtension token_account_data) .internalServerError
    [.fetchAccount token_account] fun ct_extension =>
  let user_wallet := env.freshKeypair 1
  stepE (generate_elgamal_keypair env.ext user_wallet token_account)
    .internalServerError [.fetchAccount token_account] fun elgamal_keypair =>
  stepE (generate_aes_key env.ext user_wallet token_account)
    .internalServerError [.fetchAccount token_account] fun aes_key =>
  stepE (generate_withdraw_proof env ct_extension payload.amount elgamal_keypair aes_key)
    .internalServerError [.fetchAccount token_account] fun withdraw_proof_data =>
  let equality_proof_keypair := env.freshKeypair 2
  let range_proof_keypair := env.freshKeypair 3
  step (if env.encodeVerifyProofFails withdraw_proof_data.equality_proof_data
      then none else some ()) .internalServerError
    [.fetchAccount token_account] fun _ =>
  step env.latestBlockhash .internalServerError
    [.fetchAccount token_account, .fetchBlockhash] fun _recent_blockhash =>
  let eq_tx : Tx := ⟨[.verifyProof equality_proof_keypair.pubkey
      withdraw_proof_data.equality_proof_data], payer.pubkey⟩
  step (env.submitResult 0) .internalServerError
    [.fetchAccount token_account, .fetchBlockhash, .submit eq_tx] fun _eq_sig =>
  step (if env.encodeVerifyProofFails withdraw_proof_data.range_proof_data
      then none else some ()) .internalServerError
    [.fetchAccount token_account, .fetchBlockhash, .submit eq_tx] fun _ =>
  let range_tx : Tx := ⟨[.verifyProof range_proof_keypair.pubkey
      withdraw_proof_data.range_proof_data], payer.pubkey⟩
  step (env.submitResult 1) .internalServerError
    [.fetchAccount token_account, .fetchBlockhash, .submit eq_tx,
     .submit range_tx] fun _range_sig =>
  step (if env.withdrawIxFails then none else some
      (Instr.withdrawConfidential token_account wallet_pubkey
        equality_proof_keypair.pubkey range_proof_keypair.pubkey
        payload.amount payload.decimals)) .internalServerError
    [.fetchAccount token_account, .fetchBlockhash, .submit eq_tx,
     .submit range_tx] fun withdraw_ix =>
  let withdraw_tx : Tx := ⟨[withdraw_ix], payer.pubkey⟩
  step (env.submitResult 2) .internalServerError
    [.fetchAccount token_account, .fetchBlockhash, .submit eq_tx,
     .submit range_tx, .submit withdraw_tx] fun withdraw_sig =>
  let close_eq_tx : Tx := ⟨[.closeContextState equality_proof_keypair.pubkey
      token_account payer.pubkey], payer.pubkey⟩
  let close_range_tx : Tx := ⟨[.closeContextState range_proof_keypair.pubkey
      token_account payer.pubkey], payer.pubkey⟩
  (.ok { success := true, signature := toString withdraw_sig, error := none },
   [.fetchAccount token_account, .fetchBlockhash, .submit eq_tx,
    .submit range_tx, .submit withdraw_tx, .submit close_eq_tx,
    .submit close_range_tx])

/-- `deposit_tokens` from src/routes/deposit.rs.  The deposit
instruction is built with `token_account` passed in both the account
position and the mint position, exactly as at the source call site. -/
def deposit_tokens (env : Env) (payload : DepositRequest) :
    Except StatusCode DepositResponse × List Event :=
  step (env.parsePubkey payload.wallet_address) .badRequest [] fun wallet_pubkey =>
  step (env.parsePubkey payload.token_account) .badRequest [] fun token_account =>
  let payer := env.freshKeypair 0
  step (if env.depositIxFails then none else some
      (Instr.deposit token_account token_account payload.amount
        payload.decimals wallet_pubkey)) .internalServerError [] fun deposit_ix =>
  let transaction : Tx := ⟨[deposit_ix], payer.pubkey⟩
  step env.latestBlockhash .internalServerError [.fetchBlockhash] fun _recent_blockhash =>
  step (env.submitResult 0) .internalServerError
    [.fetchBlockhash, .submit transaction] fun signature =>
  (.ok { success := true, signature := toString signature, error := none },
   [.fetchBlockhash, .submit transaction])

/-- `apply_pending_balance` from src/routes/deposit.rs. -/
def apply_pending_balance (env : Env) (payload : ApplyPendingRequest) :
    Except StatusCode ApplyPendingResponse × List Event :=
  step (env.parsePubkey payload.wallet_address) .badRequest [] fun wallet_pubkey =>
  step (env.parsePubkey payload.token_account) .badRequest [] fun token_account =>
  let payer := env.freshKeypair 0
  step (env.getAccount token_account) .notFound
    [.fetchAccount token_account] fun account_data =>
  step (env.unpackAccount account_data) .internalServerError
    [.fetchAccount token_account] fun token_account_data =>
  step (env.getCtExtension token_account_data) .internalServerError
    [.fetchAccount token_account] fun _extension =>
  let user_wallet := env.freshKeypair 1
  stepE (generate_elgamal_keypair env.ext user_wallet token_account)
    .internalServerError [.fetchAccount token_account] fun _elgamal_keypair =>
  stepE (generate_aes_key env.ext user_wallet token_account)
    .internalServerError [.fetchAccount token_account] fun _aes_key =>
  step (if env.applyPendingIxFails then none else some
      (Instr.applyPendingBalance token_account wallet_pubkey))
    .internalServerError [.fetchAccount token_account] fun apply_ix =>
  let transaction : Tx := ⟨[apply_ix], payer.pubkey⟩
  step env.latestBlockhash .internalServerError
    [.fetchAccount token_account, .fetchBlockhash] fun _recent_blockhash =>
  step (env.submitResult 0) .internalServerError
    [.fetchAccount token_account, .fetchBlockhash, .submit transaction] fun signature =>
  (.ok { success := true, signature := toString signature, error := none },
   [.fetchAccount token_account, .fetchBlockhash, .submit transaction])

/-- `create_confidential_account` from src/routes/account.rs. -/
def create_confidential_account (env : Env) (payload : CreateAccountRequest) :
    Except StatusCode CreateAccountResponse × List Event :=
  step (env.parsePubkey payload.wallet_address) .badRequest [] fun wallet_pubkey =>
  step (env.parsePubkey payload.mint_address) .badRequest [] fun mint_pubkey =>
  let payer := env.freshKeypair 0
  let token_account := env.ataAddress wallet_pubkey mint_pubkey
  let user_keypair := env.freshKeypair 1
  stepE (generate_elgamal_keypair env.ext user_keypair token_account)
    .internalServerError [] fun elgamal_keypair =>
  stepE (generate_aes_key env.ext user_keypair token_account)
    .internalServerError [] fun aes_key =>
  let maximum_pending_balance_credit_counter := 65536
  let decryptable_balance := env.aeEncryptZero aes_key
  stepE (generate_pubkey_validity_proof env elgamal_keypair)
    .internalServerError [] fun _proof_data =>
  step (if env.reallocateIxFails then none else some
      (Instr.reallocate token_account)) .internalServerError [] fun reallocate_ix =>
  step (if env.configureAccountFails then none else some
      (Instr.configureAccount token_account mint_pubkey decryptable_balance
        maximum_pending_balance_credit_counter wallet_pubkey))
    .internalServerError [] fun configure_ix =>
  let transaction : Tx := ⟨[.createAssociatedTokenAccount payer.pubkey
      wallet_pubkey mint_pubkey, reallocate_ix, configure_ix], payer.pubkey⟩
  step env.latestBlockhash .internalServerError [.fetchBlockhash] fun _recent_blockhash =>
  step (env.submitResult 0) .internalServerError
    [.fetchBlockhash, .submit transaction] fun signature =>
  (.ok { success := true, token_account := toString token_account,
         signature := toString signature, error := none },
   [.fetchBlockhash, .submit transaction])

/-- `get_balance` from src/routes/account.rs: after a successful account
fetch it returns the placeholder balances without reading the account
contents. -/
def get_balance (env : Env) (payload : GetBalanceRequest) :
    Except StatusCode GetBalanceResponse × List Event :=
  step (env.parsePubkey payload.token_account) .badRequest [] fun token_account =>
  step (env.getAccount token_account) .notFound
    [.fetchAccount token_account] fun _account_data =>
  (.ok { success := true, available_balance := 0, pending_balance := 0,
         decrypted_available := some 0, error := none },
   [.fetchAccount token_account])

/-- `generate_proof` from src/routes/account.rs: attests the placeholder
balance 100 against the requested threshold. -/
def generate_proof (_env : Env) (now_ts : Int) (payload : GenerateProofRequest) :
    Except StatusCode GenerateProofResponse × List Event :=
  stepE (generate_eligibility_proof 100 payload.threshold now_ts)
    .internalServerError [] fun eligible_proof =>
  (.ok { success := true, proof := eligible_proof.2,
         public_inputs := [payload.wallet_address, toString payload.threshold],
         eligible := eligible_proof.1, error := none },
   [])

/-! ## Trace observations -/

/-- Is this instruction a proof-context creation (`VerifyBatchedProof`
with a context account)? -/
def Instr.isVerifyProof : Instr → Bool
  | .verifyProof _ _ => true
  | _ => false

/-- Is this instruction a `close_context_state`? -/
def Instr.isCloseContext : Instr → Bool
  | .closeContextState _ _ _ => true
  | _ => false

/-- Is this event a submission of a proof-context creation transaction? -/
def Event.isCreationSubmit : Event → Bool
  | .submit tx => tx.instrs.any Instr.isVerifyProof
  | _ => false

/-- Is this event a submission of a context-close transaction? -/
def Event.isCloseSubmit : Event → Bool
  | .submit tx => tx.instrs.any Instr.isCloseContext
  | _ => false

/-- Is this event any transaction submission? -/
def Event.isSubmitEvent : Event → Bool
  | .submit _ => true
  | _ => false

/-- Number of proof-context creation submissions in a trace. -/
def countCreationSubmits (tr : List Event) : Nat :=
  (tr.filter Event.isCreationSubmit).length

/-- Number of context-close submissions in a trace. -/
def countCloseSubmits (tr : List Event) : Nat :=
  (tr.filter Event.isCloseSubmit).length

/-- Number of transaction submissions of any kind in a trace. -/
def countSubmits (tr : List Event) : Nat :=
  (tr.filter Event.isSubmitEvent).length

/-! ## A concrete environment family for witnesses and counterexamples -/

/-- Key derivation that always succeeds, with distinct outputs for the
two key kinds. -/
def extOk : Ext where
  elgamalNewFromSigner := fun w b => some ⟨w.pubkey * 1000 + b.sum⟩
  aeKeyNewFromSigner := fun w b => some ⟨w.pubkey * 1000 + b.sum + 1⟩

/-- An environment in which every external call succeeds except the
submissions governed by `submits`. -/
def mkEnv (submits : Nat → Option Nat) : Env where
  ext := extOk
  parsePubkey := fun s => some s.length
  bs58Decode := fun s => some [s.length]
  elgamalPubkeyFromBytes := fun b => some ⟨b.sum⟩
  freshKeypair := fun n => ⟨100 + n⟩
  getAccount := fun _ => some ⟨7⟩
  latestBlockhash := some 5
  unpackAccount := fun a => some ⟨a.raw⟩
  getCtExtension := fun t => some ⟨t.raw⟩
  generateSplitTransferProofData := fun _ _ _ _ _ _ => some ⟨11, 12, 13⟩
  generateWithdrawProofData := fun _ _ _ _ => some ⟨21, 22⟩
  pubkeyValidityProofData := fun _ => some 31
  encodeVerifyProofFails := fun _ => false
  transferIxFails := false
  withdrawIxFails := false
  depositIxFails := false
  applyPendingIxFails := false
  reallocateIxFails := false
  configureAccountFails := false
  submitResult := submits
  ataAddress := fun w m => w * 1000 + m
  aeEncryptZero := fun _ => 0

/-- A sample transfer request. -/
def transferReq : TransferRequest where
  sender_wallet := "sw"
  sender_token_account := "sta"
  recipient_token_account := "rta1"
  recipient_elgamal_pubkey := "rgk22"
  amount := 42

/-- A sample withdraw request. -/
def withdrawReq : WithdrawRequest where
  wallet_address := "wa"
  token_account := "wta"
  amount := 9
  decimals := 2

/-- A sample deposit request. -/
def depositReq : DepositRequest where
  wallet_address := "dw"
  token_account := "dta4"
  amount := 100
  decimals := 0

/-- A sample apply-pending request. -/
def applyReq : ApplyPendingRequest where
  wallet_address := "aw"
  token_account := "apta5"

/-- A sample create-account request. -/
def createReq : CreateAccountRequest where
  wallet_address := "cw"
  mint_address := "mint5"

/-- A sample get-balance request. -/
def balanceReq : GetBalanceRequest where
  wallet_address := "bw"
  token_account := "bta4"

/-- A sample generate-proof request. -/
def proofReq : GenerateProofRequest where
  wallet_address := "pw"
  token_account := "pta4"
  threshold := 50

/-- Every submission succeeds. -/
def envAllOk : Env := mkEnv fun n => some (50 + n)

/-- The three creations succeed, the guarded transfer submission
(index 3) fails. -/
def envGuardedFails : Env := mkEnv fun n => if n < 3 then some (50 + n) else none

/-- For withdraw: the two creations succeed, the guarded withdraw
submission (index 2) fails. -/
def envWithdrawGuardedFails : Env := mkEnv fun n => if n < 2 then some (50 + n) else none

/-- The first creation succeeds, the second fails. -/
def envSecondCreationFails : Env := mkEnv fun n => if n = 0 then some 50 else none

/-- Every submission fails; in particular the first creation fails. -/
def envFirstCreationFails : Env := mkEnv fun _ => none

/-- The first two creations succeed, the third fails. -/
def envThirdCreationFails : Env := mkEnv fun n => if n < 2 then some (50 + n) else none

/-- The guarded operation succeeds, every close submission fails. -/
def envClosesFail : Env := mkEnv fun n => if n ≤ 3 then some (50 + n) else none

/-- Transfer-proof generation fails (all submissions would succeed). -/
def envProofGenFails : Env :=
  { mkEnv (fun n => some (50 + n)) with
    generateSplitTransferProofData := fun _ _ _ _ _ _ => none }

/-- For withdraw: the guarded operation succeeds, every close submission
fails. -/
def envWithdrawClosesFail : Env := mkEnv fun n => if n ≤ 2 then some (50 + n) else none

/-! ## Claims -/

/-- C1: Key derivation is deterministic — for every wallet signing
keypair `S` and token-account address `A`, two calls of
`generate_elgamal_keypair S A` yield bit-identical ElGamal keypairs and
two calls of `generate_aes_key S A` yield bit-identical AES keys.  Both
functions are compositions of the deterministic signer-seeded sdk
derivations with no randomness, time, or other ambient input, so the
two calls are literally the same value. -/
theorem key_derivation_deterministic (ext : Ext) (S : Keypair) (A : Pubkey) :
    generate_elgamal_keypair ext S A = generate_elgamal_keypair ext S A ∧
    generate_aes_key ext S A = generate_aes_key ext S A :=
  ⟨rfl, rfl⟩

/-- C7: `generate_eligibility_proof available_balance threshold` returns
`eligible = true` iff `available_balance ≥ threshold`, and the
attestation string is `proof:eligible:<balance>:<threshold>:<timestamp>`
when eligible and exactly `proof:ineligible` otherwise. -/
theorem eligibility_proof_correct (available_balance threshold : Nat)
    (now_ts : Int) :
    ∃ eligible attestation,
      generate_eligibility_proof available_balance threshold now_ts =
        .ok (eligible, attestation) ∧
      (eligible = true ↔ available_balance ≥ threshold) ∧
      attestation = (if available_balance ≥ threshold then
          "proof:eligible:" ++ toString available_balance ++ ":" ++
            toString threshold ++ ":" ++ toString now_ts
        else "proof:ineligible") := by
  refine ⟨_, _, rfl, ?_, rfl⟩
  simp [decide_eq_true_iff]

/-- C8: the balance-decryption path is a stub that always reports zero —
`decrypt_balance` returns `Ok 0` for every AES key and 36-byte
ciphertext, and `get_balance` responds with all-zero balances whenever
the target account fetch succeeds, regardless of the account's state. -/
theorem balance_path_stubbed :
    (∀ (aes_key : AeKey) (encrypted_balance : Fin 36 → Nat),
        decrypt_balance aes_key encrypted_balance = .ok 0) ∧
    (∀ (env : Env) (payload : GetBalanceRequest) (ta : Pubkey) (ad : AccountData),
        env.parsePubkey payload.token_account = some ta →
        env.getAccount ta = some ad →
        (get_balance env payload).1 =
          .ok { success := true, available_balance := 0, pending_balance := 0,
                decrypted_available := some 0, error := none }) := by
  constructor
  · intro _ _
    rfl
  · intro env payload ta ad h1 h2
    simp [get_balance, step, h1, h2]

/-- Witness for C8 at a concrete environment and request. -/
theorem balance_path_stubbed_witness :
    decrypt_balance ⟨3⟩ (fun _ => 9) = .ok 0 ∧
    (get_balance envAllOk balanceReq).1 =
      .ok { success := true, available_balance := 0, pending_balance := 0,
            decrypted_available := some 0, error := none } :=
  ⟨balance_path_stubbed.1 ⟨3⟩ (fun _ => 9),
   balance_path_stubbed.2 envAllOk balanceReq 4 ⟨7⟩ rfl rfl⟩

/-- C10: the deposit instruction is built with the user-supplied
token-account address in both the account position and the mint
position; the request carries no mint field and nothing else is fetched
before the instruction is built, so the submitted transaction never
references the token's actual mint.  The trace shows the single
submitted transaction verbatim. -/
theorem deposit_mint_is_token_account (env : Env) (payload : DepositRequest)
    (w ta : Pubkey) (bh : Nat)
    (h1 : env.parsePubkey payload.wallet_address = some w)
    (h2 : env.parsePubkey payload.token_account = some ta)
    (h3 : env.depositIxFails = false)
    (h4 : env.latestBlockhash = some bh) :
    (deposit_tokens env payload).2 =
      [.fetchBlockhash,
       .submit ⟨[.deposit ta ta payload.amount payload.decimals w],
                (env.freshKeypair 0).pubkey⟩] := by
  cases h5 : env.submitResult 0 <;>
    simp [deposit_tokens, step, h1, h2, h3, h4, h5]

/-- Witness for C10 at a concrete environment and request. -/
theorem deposit_mint_is_token_account_witness :
    (deposit_tokens envAllOk depositReq).2 =
      [.fetchBlockhash,
       .submit ⟨[.deposit 4 4 100 0 2], (envAllOk.freshKeypair 0).pubkey⟩] :=
  deposit_mint_is_token_account envAllOk depositReq 2 4 5 rfl rfl rfl rfl

/-- Counterexample to C2 as stated: a transfer run in which all three
proof-context creations succeeded (three creation submissions are in the
trace and the environment confirmed each) and the guarded transfer
submission failed.  The submission error is surfaced, but no close
submission is attempted for any of the three created contexts — the
handler returns at the `?` on the failed submission, before the close
code. -/
theorem cleanup_after_guarded_failure_cex :
    (confidential_transfer envGuardedFails transferReq).1 =
      .error .internalServerError ∧
    countCreationSubmits (confidential_transfer envGuardedFails transferReq).2 = 3 ∧
    countCloseSubmits (confidential_transfer envGuardedFails transferReq).2 = 0 :=
  ⟨rfl, rfl, rfl⟩

/-- Counterexample to C3 as stated: a transfer run in which the first
proof-context creation succeeded and the second failed.  No further
contexts are created and a failure is reported, but the close of the
already-created first context is never attempted. -/
theorem cleanup_after_creation_failure_cex :
    (confidential_transfer envSecondCreationFails transferReq).1 =
      .error .internalServerError ∧
    countCreationSubmits (confidential_transfer envSecondCreationFails transferReq).2 = 2 ∧
    countSubmits (confidential_transfer envSecondCreationFails transferReq).2 = 2 ∧
    countCloseSubmits (confidential_transfer envSecondCreationFails transferReq).2 = 0 :=
  ⟨rfl, rfl, rfl, rfl⟩

/-- C2 (amended): in every choreography run (transfer or withdraw) in
which all proof-context creations succeeded but the guarded-operation
submission fails, the submission error is the error surfaced to the
caller (as a 500), but no close (cleanup) submission is attempted for
any created context: the handler returns at the failed submission,
before the close code is reached. -/
theorem no_cleanup_after_guarded_failure :
    (∀ (env : Env) (p : TransferRequest) (w sa ra : Pubkey) (rb : Bytes)
        (rpk : ElGamalPubkey) (ad : AccountData) (td : TokenAccountState)
        (ce : CtExtension) (ek : ElGamalKeypair) (ak : AeKey)
        (pd : TransferProofData) (bh s0 s1 s2 : Nat),
      env.parsePubkey p.sender_wallet = some w →
      env.parsePubkey p.sender_token_account = some sa →
      env.parsePubkey p.recipient_token_account = some ra →
      env.bs58Decode p.recipient_elgamal_pubkey = some rb →
      env.elgamalPubkeyFromBytes rb = some rpk →
      env.getAccount sa = some ad →
      env.unpackAccount ad = some td →
      env.getCtExtension td = some ce →
      env.ext.elgamalNewFromSigner (env.freshKeypair 1) (pubkeyToBytes sa) = some ek →
      env.ext.aeKeyNewFromSigner (env.freshKeypair 1) (pubkeyToBytes sa) = some ak →
      env.generateSplitTransferProofData ce p.amount ek ak rpk none = some pd →
      env.encodeVerifyProofFails pd.equality_proof_data = false →
      env.encodeVerifyProofFails pd.ciphertext_validity_proof_data = false →
      env.encodeVerifyProofFails pd.range_proof_data = false →
      env.latestBlockhash = some bh →
      env.submitResult 0 = some s0 →
      env.submitResult 1 = some s1 →
      env.submitResult 2 = some s2 →
      env.transferIxFails = false →
      env.submitResult 3 = none →
      (confidential_transfer env p).1 = .error .internalServerError ∧
      countCreationSubmits (confidential_transfer env p).2 = 3 ∧
      countCloseSubmits (confidential_transfer env p).2 = 0) ∧
    (∀ (env : Env) (p : WithdrawRequest) (w ta : Pubkey)
        (ad : AccountData) (td : TokenAccountState) (ce : CtExtension)
        (ek : ElGamalKeypair) (ak : AeKey) (pd : WithdrawProofData)
        (bh s0 s1 : Nat),
      env.parsePubkey p.wallet_address = some w →
      env.parsePubkey p.token_account = some ta →
      env.getAccount ta = some ad →
      env.unpackAccount ad = some td →
      env.getCtExtension td = some ce →
      env.ext.elgamalNewFromSigner (env.freshKeypair 1) (pubkeyToBytes ta) = some ek →
      env.ext.aeKeyNewFromSigner (env.freshKeypair 1) (pubkeyToBytes ta) = some ak →
      env.generateWithdrawProofData ce p.amount ek ak = some pd →
      env.encodeVerifyProofFails pd.equality_proof_data = false →
      env.encodeVerifyProofFails pd.range_proof_data = false →
      env.latestBlockhash = some bh →
      env.submitResult 0 = some s0 →
      env.submitResult 1 = some s1 →
      env.withdrawIxFails = false →
      env.submitResult 2 = none →
      (withdraw_tokens env p).1 = .error .internalServerError ∧
      countCreationSubmits (withdraw_tokens env p).2 = 2 ∧
      countCloseSubmits (withdraw_tokens env p).2 = 0) := by
  constructor
  · intro env p w sa ra rb rpk ad td ce ek ak pd bh s0 s1 s2
      h1 h2 h3 h4 h5 h6 h7 h8 h9 h10 h11 h12 h13 h14 h15 h16 h17 h18 h19 h20
    simp [confidential_transfer, step, stepE, generate_elgamal_keypair,
      generate_aes_key, generate_transfer_proof, countCreationSubmits,
      countCloseSubmits, Event.isCreationSubmit, Event.isCloseSubmit,
      Instr.isVerifyProof, Instr.isCloseContext,
      h1, h2, h3, h4, h5, h6, h7, h8, h9, h10, h11, h12, h13, h14, h15,
      h16, h17, h18, h19, h20]
  · intro env p w ta ad td ce ek ak pd bh s0 s1
      h1 h2 h3 h4 h5 h6 h7 h8 h9 h10 h11 h12 h13 h14 h15
    simp [withdraw_tokens, step, stepE, generate_elgamal_keypair,
      generate_aes_key, generate_withdraw_proof, countCreationSubmits,
      countCloseSubmits, Event.isCreationSubmit, Event.isCloseSubmit,
      Instr.isVerifyProof, Instr.isCloseContext,
      h1, h2, h3, h4, h5, h6, h7, h8, h9, h10, h11, h12, h13, h14, h15]

/-- Witness for the amended C2 at concrete environments: all creations
confirmed, guarded submission fails, and no close is attempted, for both
the transfer and the withdraw choreography. -/
theorem no_cleanup_after_guarded_failure_witness :
    ((confidential_transfer envGuardedFails transferReq).1 =
        .error .internalServerError ∧
     countCreationSubmits (confidential_transfer envGuardedFails transferReq).2 = 3 ∧
     countCloseSubmits (confidential_transfer envGuardedFails transferReq).2 = 0) ∧
    ((withdraw_tokens envWithdrawGuardedFails withdrawReq).1 =
        .error .internalServerError ∧
     countCreationSubmits (withdraw_tokens envWithdrawGuardedFails withdrawReq).2 = 2 ∧
     countCloseSubmits (withdraw_tokens envWithdrawGuardedFails withdrawReq).2 = 0) :=
  ⟨no_cleanup_after_guarded_failure.1 envGuardedFails transferReq 2 3 4 [5] ⟨5⟩
      ⟨7⟩ ⟨7⟩ ⟨7⟩ ⟨101003⟩ ⟨101004⟩ ⟨11, 12, 13⟩ 5 50 51 52
      rfl rfl rfl rfl rfl rfl rfl rfl rfl rfl rfl rfl rfl rfl rfl rfl rfl rfl rfl rfl,
   no_cleanup_after_guarded_failure.2 envWithdrawGuardedFails withdrawReq 2 3
      ⟨7⟩ ⟨7⟩ ⟨7⟩ ⟨101003⟩ ⟨101004⟩ ⟨21, 22⟩ 5 50 51
      rfl rfl rfl rfl rfl rfl rfl rfl rfl rfl rfl rfl rfl rfl rfl⟩

/-- C3 (amended): in every confidential_transfer run in which some
proof-context creation submission fails — whether the first, the second
or the third of the three — no further contexts are created after the
failure and the reported result is a failure (500), but no close
(cleanup) submission is attempted for any context that was already
created: the handler returns at the failed creation, before the close
code.  A creation can only fail at index k with the k earlier creations
confirmed (an earlier failure would already have aborted the run), so
the three conjuncts exhaust the quantification. -/
theorem no_cleanup_after_creation_failure :
    (∀ (env : Env) (p : TransferRequest) (w sa ra : Pubkey) (rb : Bytes)
        (rpk : ElGamalPubkey) (ad : AccountData) (td : TokenAccountState)
        (ce : CtExtension) (ek : ElGamalKeypair) (ak : AeKey)
        (pd : TransferProofData) (bh : Nat),
      env.parsePubkey p.sender_wallet = some w →
      env.parsePubkey p.sender_token_account = some sa →
      env.parsePubkey p.recipient_token_account = some ra →
      env.bs58Decode p.recipient_elgamal_pubkey = some rb →
      env.elgamalPubkeyFromBytes rb = some rpk →
      env.getAccount sa = some ad →
      env.unpackAccount ad = some td →
      env.getCtExtension td = some ce →
      env.ext.elgamalNewFromSigner (env.freshKeypair 1) (pubkeyToBytes sa) = some ek →
      env.ext.aeKeyNewFromSigner (env.freshKeypair 1) (pubkeyToBytes sa) = some ak →
      env.generateSplitTransferProofData ce p.amount ek ak rpk none = some pd →
      env.encodeVerifyProofFails pd.equality_proof_data = false →
      env.latestBlockhash = some bh →
      env.submitResult 0 = none →
      (confidential_transfer env p).1 = .error .internalServerError ∧
      countCreationSubmits (confidential_transfer env p).2 = 1 ∧
      countSubmits (confidential_transfer env p).2 = 1 ∧
      countCloseSubmits (confidential_transfer env p).2 = 0) ∧
    (∀ (env : Env) (p : TransferRequest) (w sa ra : Pubkey) (rb : Bytes)
        (rpk : ElGamalPubkey) (ad : AccountData) (td : TokenAccountState)
        (ce : CtExtension) (ek : ElGamalKeypair) (ak : AeKey)
        (pd : TransferProofData) (bh s0 : Nat),
      env.parsePubkey p.sender_wallet = some w →
      env.parsePubkey p.sender_token_account = some sa →
      env.parsePubkey p.recipient_token_account = some ra →
      env.bs58Decode p.recipient_elgamal_pubkey = some rb →
      env.elgamalPubkeyFromBytes rb = some rpk →
      env.getAccount sa = some ad →
      env.unpackAccount ad = some td →
      env.getCtExtension td = some ce →
      env.ext.elgamalNewFromSigner (env.freshKeypair 1) (pubkeyToBytes sa) = some ek →
      env.ext.aeKeyNewFromSigner (env.freshKeypair 1) (pubkeyToBytes sa) = some ak →
      env.generateSplitTransferProofData ce p.amount ek ak rpk none = some pd →
      env.encodeVerifyProofFails pd.equality_proof_data = false →
      env.encodeVerifyProofFails pd.ciphertext_validity_proof_data = false →
      env.latestBlockhash = some bh →
      env.submitResult 0 = some s0 →
      env.submitResult 1 = none →
      (confidential_transfer env p).1 = .error .internalServerError ∧
      countCreationSubmits (confidential_transfer env p).2 = 2 ∧
      countSubmits (confidential_transfer env p).2 = 2 ∧
      countCloseSubmits (confidential_transfer env p).2 = 0) ∧
    (∀ (env : Env) (p : TransferRequest) (w sa ra : Pubkey) (rb : Bytes)
        (rpk : ElGamalPubkey) (ad : AccountData) (td : TokenAccountState)
        (ce : CtExtension) (ek : ElGamalKeypair) (ak : AeKey)
        (pd : TransferProofData) (bh s0 s1 : Nat),
      env.parsePubkey p.sender_wallet = some w →
      env.parsePubkey p.sender_token_account = some sa →
      env.parsePubkey p.recipient_token_account = some ra →
      env.bs58Decode p.recipient_elgamal_pubkey = some rb →
      env.elgamalPubkeyFromBytes rb = some rpk →
      env.getAccount sa = some ad →
      env.unpackAccount ad = some td →
      env.getCtExtension td = some ce →
      env.ext.elgamalNewFromSigner (env.freshKeypair 1) (pubkeyToBytes sa) = some ek →
      env.ext.aeKeyNewFromSigner (env.freshKeypair 1) (pubkeyToBytes sa) = some ak →
      env.generateSplitTransferProofData ce p.amount ek ak rpk none = some pd →
      env.encodeVerifyProofFails pd.equality_proof_data = false →
      env.encodeVerifyProofFails pd.ciphertext_validity_proof_data = false →
      env.encodeVerifyProofFails pd.range_proof_data = false →
      env.latestBlockhash = some bh →
      env.submitResult 0 = some s0 →
      env.submitResult 1 = some s1 →
      env.submitResult 2 = none →
      (confidential_transfer env p).1 = .error .internalServerError ∧
      countCreationSubmits (confidential_transfer env p).2 = 3 ∧
      countSubmits (confidential_transfer env p).2 = 3 ∧
      countCloseSubmits (confidential_transfer env p).2 = 0) := by
  refine ⟨?_, ?_, ?_⟩
  · intro env p w sa ra rb rpk ad td ce ek ak pd bh
      h1 h2 h3 h4 h5 h6 h7 h8 h9 h10 h11 h12 h13 h14
    simp [confidential_transfer, step, stepE, generate_elgamal_keypair,
      generate_aes_key, generate_transfer_proof, countCreationSubmits,
      countSubmits, countCloseSubmits, Event.isCreationSubmit,
      Event.isCloseSubmit, Event.isSubmitEvent, Instr.isVerifyProof,
      Instr.isCloseContext,
      h1, h2, h3, h4, h5, h6, h7, h8, h9, h10, h11, h12, h13, h14]
  · intro env p w sa ra rb rpk ad td ce ek ak pd bh s0
      h1 h2 h3 h4 h5 h6 h7 h8 h9 h10 h11 h12 h13 h14 h15 h16
    simp [confidential_transfer, step, stepE, generate_elgamal_keypair,
      generate_aes_key, generate_transfer_proof, countCreationSubmits,
      countSubmits, countCloseSubmits, Event.isCreationSubmit,
      Event.isCloseSubmit, Event.isSubmitEvent, Instr.isVerifyProof,
      Instr.isCloseContext,
      h1, h2, h3, h4, h5, h6, h7, h8, h9, h10, h11, h12, h13, h14, h15, h16]
  · intro env p w sa ra rb rpk ad td ce ek ak pd bh s0 s1
      h1 h2 h3 h4 h5 h6 h7 h8 h9 h10 h11 h12 h13 h14 h15 h16 h17 h18
    simp [confidential_transfer, step, stepE, generate_elgamal_keypair,
      generate_aes_key, generate_transfer_proof, countCreationSubmits,
      countSubmits, countCloseSubmits, Event.isCreationSubmit,
      Event.isCloseSubmit, Event.isSubmitEvent, Instr.isVerifyProof,
      Instr.isCloseContext,
      h1, h2, h3, h4, h5, h6, h7, h8, h9, h10, h11, h12, h13, h14, h15,
      h16, h17, h18]

/-- Witness for the amended C3 at concrete environments covering all
three positions of the failing creation: in each run the failed creation
aborts the handler with exactly the attempted creation submissions in
the trace and no close submission. -/
theorem no_cleanup_after_creation_failure_witness :
    ((confidential_transfer envFirstCreationFails transferReq).1 =
        .error .internalServerError ∧
     countCreationSubmits (confidential_transfer envFirstCreationFails transferReq).2 = 1 ∧
     countSubmits (confidential_transfer envFirstCreationFails transferReq).2 = 1 ∧
     countCloseSubmits (confidential_transfer envFirstCreationFails transferReq).2 = 0) ∧
    ((confidential_transfer envSecondCreationFails transferReq).1 =
        .error .internalServerError ∧
     countCreationSubmits (confidential_transfer envSecondCreationFails transferReq).2 = 2 ∧
     countSubmits (confidential_transfer envSecondCreationFails transferReq).2 = 2 ∧
     countCloseSubmits (confidential_transfer envSecondCreationFails transferReq).2 = 0) ∧
    ((confidential_transfer envThirdCreationFails transferReq).1 =
        .error .internalServerError ∧
     countCreationSubmits (confidential_transfer envThirdCreationFails transferReq).2 = 3 ∧
     countSubmits (confidential_transfer envThirdCreationFails transferReq).2 = 3 ∧
     countCloseSubmits (confidential_transfer envThirdCreationFails transferReq).2 = 0) :=
  ⟨no_cleanup_after_creation_failure.1 envFirstCreationFails transferReq 2 3 4 [5]
      ⟨5⟩ ⟨7⟩ ⟨7⟩ ⟨7⟩ ⟨101003⟩ ⟨101004⟩ ⟨11, 12, 13⟩ 5
      rfl rfl rfl rfl rfl rfl rfl rfl rfl rfl rfl rfl rfl rfl,
   no_cleanup_after_creation_failure.2.1 envSecondCreationFails transferReq 2 3 4 [5]
      ⟨5⟩ ⟨7⟩ ⟨7⟩ ⟨7⟩ ⟨101003⟩ ⟨101004⟩ ⟨11, 12, 13⟩ 5 50
      rfl rfl rfl rfl rfl rfl rfl rfl rfl rfl rfl rfl rfl rfl rfl rfl,
   no_cleanup_after_creation_failure.2.2 envThirdCreationFails transferReq 2 3 4 [5]
      ⟨5⟩ ⟨7⟩ ⟨7⟩ ⟨7⟩ ⟨101003⟩ ⟨101004⟩ ⟨11, 12, 13⟩ 5 50 51
      rfl rfl rfl rfl rfl rfl rfl rfl rfl rfl rfl rfl rfl rfl rfl rfl rfl rfl⟩

/-- C4: for every choreography run in which the guarded operation
succeeded, the close results are discarded (`.ok()` in the source), so a
failure of any close submission is never propagated and never changes
the reported result: the handler returns the success response carrying
the guarded operation's signature.  No hypothesis constrains the close
submissions (indices 4–6 for transfer, 3–4 for withdraw), so the
conclusion holds whatever their outcome. -/
theorem close_failure_never_propagates :
    (∀ (env : Env) (p : TransferRequest) (w sa ra : Pubkey) (rb : Bytes)
        (rpk : ElGamalPubkey) (ad : AccountData) (td : TokenAccountState)
        (ce : CtExtension) (ek : ElGamalKeypair) (ak : AeKey)
        (pd : TransferProofData) (bh s0 s1 s2 sg : Nat),
      env.parsePubkey p.sender_wallet = some w →
      env.parsePubkey p.sender_token_account = some sa →
      env.parsePubkey p.recipient_token_account = some ra →
      env.bs58Decode p.recipient_elgamal_pubkey = some rb →
      env.elgamalPubkeyFromBytes rb = some rpk →
      env.getAccount sa = some ad →
      env.unpackAccount ad = some td →
      env.getCtExtension td = some ce →
      env.ext.elgamalNewFromSigner (env.freshKeypair 1) (pubkeyToBytes sa) = some ek →
      env.ext.aeKeyNewFromSigner (env.freshKeypair 1) (pubkeyToBytes sa) = some ak →
      env.generateSplitTransferProofData ce p.amount ek ak rpk none = some pd →
      env.encodeVerifyProofFails pd.equality_proof_data = false →
      env.encodeVerifyProofFails pd.ciphertext_validity_proof_data = false →
      env.encodeVerifyProofFails pd.range_proof_data = false →
      env.latestBlockhash = some bh →
      env.submitResult 0 = some s0 →
      env.submitResult 1 = some s1 →
      env.submitResult 2 = some s2 →
      env.transferIxFails = false →
      env.submitResult 3 = some sg →
      (confidential_transfer env p).1 =
        .ok { success := true, signature := toString sg, error := none }) ∧
    (∀ (env : Env) (p : WithdrawRequest) (w ta : Pubkey)
        (ad : AccountData) (td : TokenAccountState) (ce : CtExtension)
        (ek : ElGamalKeypair) (ak : AeKey) (pd : WithdrawProofData)
        (bh s0 s1 sg : Nat),
      env.parsePubkey p.wallet_address = some w →
      env.parsePubkey p.token_account = some ta →
      env.getAccount ta = some ad →
      env.unpackAccount ad = some td →
      env.getCtExtension td = some ce →
      env.ext.elgamalNewFromSigner (env.freshKeypair 1) (pubkeyToBytes ta) = some ek →
      env.ext.aeKeyNewFromSigner (env.freshKeypair 1) (pubkeyToBytes ta) = some ak →
      env.generateWithdrawProofData ce p.amount ek ak = some pd →
      env.encodeVerifyProofFails pd.equality_proof_data = false →
      env.encodeVerifyProofFails pd.range_proof_data = false →
      env.latestBlockhash = some bh →
      env.submitResult 0 = some s0 →
      env.submitResult 1 = some s1 →
      env.withdrawIxFails = false →
      env.submitResult 2 = some sg →
      (withdraw_tokens env p).1 =
        .ok { success := true, signature := toString sg, error := none }) := by
  constructor
  · intro env p w sa ra rb rpk ad td ce ek ak pd bh s0 s1 s2 sg
      h1 h2 h3 h4 h5 h6 h7 h8 h9 h10 h11 h12 h13 h14 h15 h16 h17 h18 h19 h20
    simp [confidential_transfer, step, stepE, generate_elgamal_keypair,
      generate_aes_key, generate_transfer_proof,
      h1, h2, h3, h4, h5, h6, h7, h8, h9, h10, h11, h12, h13, h14, h15,
      h16, h17, h18, h19, h20]
  · intro env p w ta ad td ce ek ak pd bh s0 s1 sg
      h1 h2 h3 h4 h5 h6 h7 h8 h9 h10 h11 h12 h13 h14 h15
    simp [withdraw_tokens, step, stepE, generate_elgamal_keypair,
      generate_aes_key, generate_withdraw_proof,
      h1, h2, h3, h4, h5, h6, h7, h8, h9, h10, h11, h12, h13, h14, h15]

/-- Witness for C4 at concrete environments in which every close
submission fails: both handlers still return the success response with
the guarded signature. -/
theorem close_failure_never_propagates_witness :
    (confidential_transfer envClosesFail transferReq).1 =
      .ok { success := true, signature := toString 53, error := none } ∧
    (withdraw_tokens envWithdrawClosesFail withdrawReq).1 =
      .ok { success := true, signature := toString 52, error := none } :=
  ⟨close_failure_never_propagates.1 envClosesFail transferReq 2 3 4 [5] ⟨5⟩
      ⟨7⟩ ⟨7⟩ ⟨7⟩ ⟨101003⟩ ⟨101004⟩ ⟨11, 12, 13⟩ 5 50 51 52 53
      rfl rfl rfl rfl rfl rfl rfl rfl rfl rfl rfl rfl rfl rfl rfl rfl rfl rfl rfl rfl,
   close_failure_never_propagates.2 envWithdrawClosesFail withdrawReq 2 3
      ⟨7⟩ ⟨7⟩ ⟨7⟩ ⟨101003⟩ ⟨101004⟩ ⟨21, 22⟩ 5 50 51 52
      rfl rfl rfl rfl rfl rfl rfl rfl rfl rfl rfl rfl rfl rfl rfl⟩

/-- C6: transfer-proof generation happens before any context-creation
submission — in every run in which `generate_transfer_proof` fails, the
handler returns a 500 and the trace contains no transaction submission
at all (the only ledger interaction so far is the account fetch), so no
contexts are created. -/
theorem proof_generation_precedes_submissions
    (env : Env) (p : TransferRequest) (w sa ra : Pubkey) (rb : Bytes)
    (rpk : ElGamalPubkey) (ad : AccountData) (td : TokenAccountState)
    (ce : CtExtension) (ek : ElGamalKeypair) (ak : AeKey)
    (h1 : env.parsePubkey p.sender_wallet = some w)
    (h2 : env.parsePubkey p.sender_token_account = some sa)
    (h3 : env.parsePubkey p.recipient_token_account = some ra)
    (h4 : env.bs58Decode p.recipient_elgamal_pubkey = some rb)
    (h5 : env.elgamalPubkeyFromBytes rb = some rpk)
    (h6 : env.getAccount sa = some ad)
    (h7 : env.unpackAccount ad = some td)
    (h8 : env.getCtExtension td = some ce)
    (h9 : env.ext.elgamalNewFromSigner (env.freshKeypair 1) (pubkeyToBytes sa) = some ek)
    (h10 : env.ext.aeKeyNewFromSigner (env.freshKeypair 1) (pubkeyToBytes sa) = some ak)
    (h11 : env.generateSplitTransferProofData ce p.amount ek ak rpk none = none) :
    (confidential_transfer env p).1 = .error .internalServerError ∧
    (confidential_transfer env p).2 = [.fetchAccount sa] ∧
    countSubmits (confidential_transfer env p).2 = 0 := by
  simp [confidential_transfer, step, stepE, generate_elgamal_keypair,
    generate_aes_key, generate_transfer_proof, countSubmits,
    Event.isSubmitEvent,
    h1, h2, h3, h4, h5, h6, h7, h8, h9, h10, h11]

/-- Witness for C6 at a concrete environment in which proof generation
fails: a 500 is returned and the trace holds only the account fetch. -/
theorem proof_generation_precedes_submissions_witness :
    (confidential_transfer envProofGenFails transferReq).1 =
      .error .internalServerError ∧
    (confidential_transfer envProofGenFails transferReq).2 = [.fetchAccount 3] ∧
    countSubmits (confidential_transfer envProofGenFails transferReq).2 = 0 :=
  proof_generation_precedes_submissions envProofGenFails transferReq 2 3 4 [5]
    ⟨5⟩ ⟨7⟩ ⟨7⟩ ⟨7⟩ ⟨101003⟩ ⟨101004⟩
    rfl rfl rfl rfl rfl rfl rfl rfl rfl rfl rfl

/-- C5: for every handler that submits a guarded ledger operation, a
response with `success = true` is returned only if the send-and-confirm
of the guarded transaction returned successfully, and the reported
signature is that submission's.  The guarded submission index is 3 for
transfer (after the three creations), 2 for withdraw (after the two
creations), and 0 for deposit, apply-pending and create-account.  All
other outcomes of the run are error statuses, so success is never
claimed without ledger confirmation. -/
theorem success_only_if_guarded_confirmed :
    (∀ (env : Env) (p : TransferRequest) (r : TransferResponse) (tr : List Event),
      confidential_transfer env p = (.ok r, tr) →
      ∃ s, env.submitResult 3 = some s ∧ r.signature = toString s) ∧
    (∀ (env : Env) (p : WithdrawRequest) (r : WithdrawResponse) (tr : List Event),
      withdraw_tokens env p = (.ok r, tr) →
      ∃ s, env.submitResult 2 = some s ∧ r.signature = toString s) ∧
    (∀ (env : Env) (p : DepositRequest) (r : DepositResponse) (tr : List Event),
      deposit_tokens env p = (.ok r, tr) →
      ∃ s, env.submitResult 0 = some s ∧ r.signature = toString s) ∧
    (∀ (env : Env) (p : ApplyPendingRequest) (r : ApplyPendingResponse) (tr : List Event),
      apply_pending_balance env p = (.ok r, tr) →
      ∃ s, env.submitResult 0 = some s ∧ r.signature = toString s) ∧
    (∀ (env : Env) (p : CreateAccountRequest) (r : CreateAccountResponse) (tr : List Event),
      create_confidential_account env p = (.ok r, tr) →
      ∃ s, env.submitResult 0 = some s ∧ r.signature = toString s) := by
  refine ⟨?_, ?_, ?_, ?_, ?_⟩
  · intro env p r tr h
    simp only [confidential_transfer, step, stepE, generate_elgamal_keypair,
      generate_aes_key, generate_transfer_proof] at h
    repeat' split at h
    all_goals simp_all
    all_goals rw [← h.1]
  · intro env p r tr h
    simp only [withdraw_tokens, step, stepE, generate_elgamal_keypair,
      generate_aes_key, generate_withdraw_proof] at h
    repeat' split at h
    all_goals simp_all
    all_goals rw [← h.1]
  · intro env p r tr h
    simp only [deposit_tokens, step, stepE] at h
    repeat' split at h
    all_goals simp_all
    all_goals rw [← h.1]
  · intro env p r tr h
    simp only [apply_pending_balance, step, stepE, generate_elgamal_keypair,
      generate_aes_key] at h
    repeat' split at h
    all_goals simp_all
    all_goals rw [← h.1]
  · intro env p r tr h
    simp only [create_confidential_account, step, stepE,
      generate_elgamal_keypair, generate_aes_key,
      generate_pubkey_validity_proof] at h
    repeat' split at h
    all_goals simp_all
    all_goals rw [← h.1]

/-- Witness for C5: on an environment where every submission is
confirmed, each of the five handlers returns success and the reported
signature matches the environment's confirmation for the guarded
submission index. -/
theorem success_only_if_guarded_confirmed_witness :
    (∃ s, envAllOk.submitResult 3 = some s ∧
      (TransferResponse.mk true "53" none).signature = toString s) ∧
    (∃ s, envAllOk.submitResult 2 = some s ∧
      (WithdrawResponse.mk true "52" none).signature = toString s) ∧
    (∃ s, envAllOk.submitResult 0 = some s ∧
      (DepositResponse.mk true "50" none).signature = toString s) ∧
    (∃ s, envAllOk.submitResult 0 = some s ∧
      (ApplyPendingResponse.mk true "50" none).signature = toString s) ∧
    (∃ s, envAllOk.submitResult 0 = some s ∧
      (CreateAccountResponse.mk true "2005" "50" none).signature = toString s) :=
  ⟨success_only_if_guarded_confirmed.1 envAllOk transferReq _ _ rfl,
   success_only_if_guarded_confirmed.2.1 envAllOk withdrawReq _ _ rfl,
   success_only_if_guarded_confirmed.2.2.1 envAllOk depositReq _ _ rfl,
   success_only_if_guarded_confirmed.2.2.2.1 envAllOk applyReq _ _ rfl,
   success_only_if_guarded_confirmed.2.2.2.2 envAllOk createReq _ _ rfl⟩

/-- C9: every JSON response body any handler produces has
`success = true` and `error = none`; failures never carry a body (they
are bare status codes, the `.error` side of the result), so a body with
`success = false` is never constructed. -/
theorem response_bodies_always_success :
    (∀ (env : Env) (p : TransferRequest) (r : TransferResponse) (tr : List Event),
      confidential_transfer env p = (.ok r, tr) → r.success = true ∧ r.error = none) ∧
    (∀ (env : Env) (p : WithdrawRequest) (r : WithdrawResponse) (tr : List Event),
      withdraw_tokens env p = (.ok r, tr) → r.success = true ∧ r.error = none) ∧
    (∀ (env : Env) (p : DepositRequest) (r : DepositResponse) (tr : List Event),
      deposit_tokens env p = (.ok r, tr) → r.success = true ∧ r.error = none) ∧
    (∀ (env : Env) (p : ApplyPendingRequest) (r : ApplyPendingResponse) (tr : List Event),
      apply_pending_balance env p = (.ok r, tr) → r.success = true ∧ r.error = none) ∧
    (∀ (env : Env) (p : CreateAccountRequest) (r : CreateAccountResponse) (tr : List Event),
      create_confidential_account env p = (.ok r, tr) → r.success = true ∧ r.error = none) ∧
    (∀ (env : Env) (p : GetBalanceRequest) (r : GetBalanceResponse) (tr : List Event),
      get_balance env p = (.ok r, tr) → r.success = true ∧ r.error = none) ∧
    (∀ (env : Env) (now_ts : Int) (p : GenerateProofRequest)
        (r : GenerateProofResponse) (tr : List Event),
      generate_proof env now_ts p = (.ok r, tr) → r.success = true ∧ r.error = none) := by
  refine ⟨?_, ?_, ?_, ?_, ?_, ?_, ?_⟩
  · intro env p r tr h
    simp only [confidential_transfer, step, stepE, generate_elgamal_keypair,
      generate_aes_key, generate_transfer_proof] at h
    repeat' split at h
    all_goals simp_all
    all_goals (rw [← h.1]; exact ⟨rfl, rfl⟩)
  · intro env p r tr h
    simp only [withdraw_tokens, step, stepE, generate_elgamal_keypair,
      generate_aes_key, generate_withdraw_proof] at h
    repeat' split at h
    all_goals simp_all
    all_goals (rw [← h.1]; exact ⟨rfl, rfl⟩)
  · intro env p r tr h
    simp only [deposit_tokens, step, stepE] at h
    repeat' split at h
    all_goals simp_all
    all_goals (rw [← h.1]; exact ⟨rfl, rfl⟩)
  · intro env p r tr h
    simp only [apply_pending_balance, step, stepE, generate_elgamal_keypair,
      generate_aes_key] at h
    repeat' split at h
    all_goals simp_all
    all_goals (rw [← h.1]; exact ⟨rfl, rfl⟩)
  · intro env p r tr h
    simp only [create_confidential_account, step, stepE,
      generate_elgamal_keypair, generate_aes_key,
      generate_pubkey_validity_proof] at h
    repeat' split at h
    all_goals simp_all
    all_goals (rw [← h.1]; exact ⟨rfl, rfl⟩)
  · intro env p r tr h
    simp only [get_balance, step] at h
    repeat' split at h
    all_goals simp_all
    all_goals (rw [← h.1]; exact ⟨rfl, rfl⟩)
  · intro env now_ts p r tr h
    simp only [generate_proof, stepE, generate_eligibility_proof] at h
    repeat' split at h
    all_goals simp_all
    all_goals (rw [← h.1]; exact ⟨rfl, rfl⟩)

/-- Witness for C9: each handler's concrete successful run yields a body
with `success = true` and `error = none`. -/
theorem response_bodies_always_success_witness :
    ((TransferResponse.mk true "53" none).success = true ∧
      (TransferResponse.mk true "53" none).error = none) ∧
    ((WithdrawResponse.mk true "52" none).success = true ∧
      (WithdrawResponse.mk true "52" none).error = none) ∧
    ((DepositResponse.mk true "50" none).success = true ∧
      (DepositResponse.mk true "50" none).error = none) ∧
    ((ApplyPendingResponse.mk true "50" none).success = true ∧
      (ApplyPendingResponse.mk true "50" none).error = none) ∧
    ((CreateAccountResponse.mk true "2005" "50" none).success = true ∧
      (CreateAccountResponse.mk true "2005" "50" none).error = none) ∧
    ((GetBalanceResponse.mk true 0 0 (some 0) none).success = true ∧
      (GetBalanceResponse.mk true 0 0 (some 0) none).error = none) ∧
    ((GenerateProofResponse.mk true "proof:eligible:100:50:777" ["pw", "50"]
        true none).success = true ∧
      (GenerateProofResponse.mk true "proof:eligible:100:50:777" ["pw", "50"]
        true none).error = none) :=
  ⟨response_bodies_always_success.1 envAllOk transferReq _ _ rfl,
   response_bodies_always_success.2.1 envAllOk withdrawReq _ _ rfl,
   response_bodies_always_success.2.2.1 envAllOk depositReq _ _ rfl,
   response_bodies_always_success.2.2.2.1 envAllOk applyReq _ _ rfl,
   response_bodies_always_success.2.2.2.2.1 envAllOk createReq _ _ rfl,
   response_bodies_always_success.2.2.2.2.2.1 envAllOk balanceReq _ _ rfl,
   response_bodies_always_success.2.2.2.2.2.2 envAllOk 777 proofReq _ _ rfl⟩

end PrivyPass
